import Mathlib

/-!
Verification of the network-monitoring subsystem of
`rapidapi_mcp_server/enhanced_chrome_client.py`.

The Python code is shallowly embedded: Python runtime values are modelled by
the inductive `Py`, dictionaries by insertion-ordered association lists,
exceptions by `Except PyErr`, and the external browser driver and static
assessment collaborator (out of scope per the specification) by an explicit
`Env` oracle.  Every definition mirrors the corresponding source function.
-/

namespace RapidApi

/-- Python exception kinds that can arise in the embedded code paths. -/
inductive PyErr where
  | attributeError
  | keyError
  | typeError
  | valueError
  | jsonDecodeError
  deriving Repr, DecidableEq

/-- A Python runtime value.  Dictionaries are insertion-ordered association
lists (Python 3.7+ dicts preserve insertion order); numbers carry exact
values: `int` as `Int`, and `float m e` as the exact scaled decimal
`m / 10 ^ e` (the floats this code path produces come from decimal JSON
literals and `float(...)` coercions of such values — e.g. `4.5` is
`float 45 1` — all exactly representable in an IEEE-free decimal
model). -/
inductive Py where
  | none
  | bool (b : Bool)
  | int (n : Int)
  | float (m : Int) (e : Nat)
  | str (s : String)
  | list (xs : List Py)
  | dict (kvs : List (String × Py))
  deriving Repr

/-- First binding of a key in an association list (Python dicts have unique
keys, so this is the binding). -/
def dictFind : List (String × Py) → String → Option Py
  | [], _ => Option.none
  | (k, v) :: t, key => if k == key then some v else dictFind t key

/-- Assignment `d[key] = v`: replace the first binding of `key` in place (Python dicts
keep the original insertion position on update) or append a new binding. -/
def dictSet : List (String × Py) → String → Py → List (String × Py)
  | [], key, v => [(key, v)]
  | (k, w) :: t, key, v =>
      if k == key then (key, v) :: t else (k, w) :: dictSet t key v

/-- Update `d.update(other)`: assign every binding of `other` into `d`, in order. -/
def dictUpdate (d other : List (String × Py)) : List (String × Py) :=
  other.foldl (fun acc kv => dictSet acc kv.1 kv.2) d

/-- Keys of an association list, in order. -/
def dictKeys (l : List (String × Py)) : List String := l.map Prod.fst

/-- Numeric view used by Python `==`: `bool`, `int` and `float` compare by
numeric value (`True == 1`, `1 == 1.0`), as an exact scaled decimal
`m / 10 ^ e`. -/
def numDec : Py → Option (Int × Nat)
  | .bool b => some (if b then 1 else 0, 0)
  | .int n => some (n, 0)
  | .float m e => some (m, e)
  | _ => Option.none

mutual

/-- Python `==` on the values reachable in this module.  Numbers compare
numerically (`True == 1`, `1 == 1.0`); strings, lists and dicts
structurally (dicts are compared as their insertion-ordered bindings,
which coincides with Python's order-insensitive dict equality for the
deterministically ordered dicts this module constructs). -/
def Py.eqb : Py → Py → Bool
  | .none, .none => true
  | .str a, .str b => a == b
  | .list xs, .list ys => pyEqbList xs ys
  | .dict xs, .dict ys => pyEqbPairs xs ys
  | a, b =>
      match numDec a, numDec b with
      | some (m1, e1), some (m2, e2) =>
          decide (m1 * (10 : Int) ^ e2 = m2 * (10 : Int) ^ e1)
      | _, _ => false

/-- Elementwise Python `==` on lists. -/
def pyEqbList : List Py → List Py → Bool
  | [], [] => true
  | a :: as_, b :: bs => Py.eqb a b && pyEqbList as_ bs
  | _, _ => false

/-- Pairwise Python `==` on dict bindings. -/
def pyEqbPairs : List (String × Py) → List (String × Py) → Bool
  | [], [] => true
  | (k1, v1) :: t1, (k2, v2) :: t2 =>
      k1 == k2 && Py.eqb v1 v2 && pyEqbPairs t1 t2
  | _, _ => false

end

/-- Python truthiness. -/
def Py.truthy : Py → Bool
  | .none => false
  | .bool b => b
  | .int n => decide (n ≠ 0)
  | .float m _ => decide (m ≠ 0)
  | .str s => !(s == "")
  | .list xs => !xs.isEmpty
  | .dict kvs => !kvs.isEmpty

/-- Lookup `v.get(k)`: `None` default; raises `AttributeError` when `v` is not a
dict (no `.get` method). -/
def pyGet (v : Py) (k : String) : Except PyErr Py :=
  match v with
  | .dict kvs => .ok ((dictFind kvs k).getD Py.none)
  | _ => .error .attributeError

/-- Lookup `v.get(k, d)` with an explicit default.  The default is used only when
the key is absent — a key bound to `None` yields `None`. -/
def pyGetDefault (v : Py) (k : String) (d : Py) : Except PyErr Py :=
  match v with
  | .dict kvs => .ok ((dictFind kvs k).getD d)
  | _ => .error .attributeError

/-- Subscript `v[k]` with a string key. -/
def pySubscr (v : Py) (k : String) : Except PyErr Py :=
  match v with
  | .dict kvs =>
      match dictFind kvs k with
      | some x => .ok x
      | Option.none => .error .keyError
  | _ => .error .typeError

/-- Substring test on character lists (Python `needle in haystack` for
strings; the empty needle is contained everywhere). -/
def containsSub (n : List Char) : List Char → Bool
  | [] => n.isEmpty
  | c :: cs => n.isPrefixOf (c :: cs) || containsSub n cs

/-- Python `k in v`: key membership for dicts, substring for strings,
element membership for lists; iteration over other values raises
`TypeError`. -/
def pyContains (k : String) (v : Py) : Except PyErr Bool :=
  match v with
  | .dict kvs => .ok (dictFind kvs k).isSome
  | .str s => .ok (containsSub k.data s.data)
  | .list xs => .ok (xs.any fun x => Py.eqb x (.str k))
  | _ => .error .typeError

/-- Lowercasing `str.lower()` (ASCII case folding, which covers every string this
module compares). -/
def pyLower (s : String) : String := String.mk (s.data.map Char.toLower)

/-- Python `a in b` on strings. -/
def strIn (a b : String) : Bool := containsSub a.data b.data

/-! ### `json.loads`

A model of Python's `json.loads` for the payload subset this module
consumes: objects, arrays, strings (with the common escapes), integers and
decimal numbers, `true`/`false`/`null`.  Exponent notation and `\u` escapes
are outside the payload grammars exercised here.  A parse failure is a
`JSONDecodeError`. -/

/-- JSON whitespace. -/
def jsonWs (c : Char) : Bool := c == ' ' || c == '\n' || c == '\t' || c == '\r'

def skipWs (cs : List Char) : List Char := cs.dropWhile jsonWs

/-- Value of a digit run. -/
def digitsVal (ds : List Char) : Nat :=
  ds.foldl (fun acc c => acc * 10 + (c.toNat - '0'.toNat)) 0

/-- Parse a JSON number (integer or decimal). -/
def jsonNum (cs : List Char) : Option (Py × List Char) :=
  let (neg, cs1) := match cs with
    | '-' :: t => (true, t)
    | _ => (false, cs)
  let ds := cs1.takeWhile Char.isDigit
  let cs2 := cs1.drop ds.length
  if ds.isEmpty then Option.none
  else
    match cs2 with
    | '.' :: cs3 =>
        let fs := cs3.takeWhile Char.isDigit
        let cs4 := cs3.drop fs.length
        if fs.isEmpty then Option.none
        else
          let mant : Int :=
            (digitsVal ds * 10 ^ fs.length + digitsVal fs : Int)
          some (.float (if neg then -mant else mant) fs.length, cs4)
    | _ =>
        let n : Int := (digitsVal ds : Int)
        some (.int (if neg then -n else n), cs2)

/-- Parse the remainder of a JSON string after the opening quote. -/
def jsonStrRest : List Char → Option (List Char × List Char)
  | [] => Option.none
  | '"' :: rest => some ([], rest)
  | '\\' :: e :: rest =>
      let ec : Option Char :=
        if e == '"' then some '"'
        else if e == '\\' then some '\\'
        else if e == '/' then some '/'
        else if e == 'n' then some '\n'
        else if e == 't' then some '\t'
        else if e == 'r' then some '\r'
        else Option.none
      match ec with
      | some c => (jsonStrRest rest).map fun (s, r) => (c :: s, r)
      | Option.none => Option.none
  | '\\' :: [] => Option.none
  | c :: rest => (jsonStrRest rest).map fun (s, r) => (c :: s, r)

mutual

/-- Parse one JSON value from the front of the input. -/
def jsonVal : Nat → List Char → Option (Py × List Char)
  | 0, _ => Option.none
  | fuel + 1, cs =>
      match skipWs cs with
      | [] => Option.none
      | c :: rest =>
          if c == '"' then
            (jsonStrRest rest).map fun (s, r) => (.str (String.mk s), r)
          else if c == 't' then
            if "rue".data.isPrefixOf rest then some (.bool true, rest.drop 3)
            else Option.none
          else if c == 'f' then
            if "alse".data.isPrefixOf rest then some (.bool false, rest.drop 4)
            else Option.none
          else if c == 'n' then
            if "ull".data.isPrefixOf rest then some (.none, rest.drop 3)
            else Option.none
          else if c == '{' then
            match skipWs rest with
            | '}' :: r => some (.dict [], r)
            | r => (jsonMembers fuel r).map fun (kvs, r') => (.dict kvs, r')
          else if c == '[' then
            match skipWs rest with
            | ']' :: r => some (.list [], r)
            | r => (jsonItems fuel r).map fun (xs, r') => (.list xs, r')
          else jsonNum (c :: rest)

/-- Parse `"key": value (, "key": value)* }`. -/
def jsonMembers : Nat → List Char → Option (List (String × Py) × List Char)
  | 0, _ => Option.none
  | fuel + 1, cs =>
      match skipWs cs with
      | '"' :: rest =>
          match jsonStrRest rest with
          | some (k, r1) =>
              (match skipWs r1 with
               | ':' :: r2 =>
                   match jsonVal fuel r2 with
                   | some (v, r3) =>
                       (match skipWs r3 with
                        | ',' :: r4 =>
                            (jsonMembers fuel r4).map fun (kvs, r5) =>
                              ((String.mk k, v) :: kvs, r5)
                        | '}' :: r4 => some ([(String.mk k, v)], r4)
                        | _ => Option.none)
                   | Option.none => Option.none
               | _ => Option.none)
          | Option.none => Option.none
      | _ => Option.none

/-- Parse `value (, value)* ]`. -/
def jsonItems : Nat → List Char → Option (List Py × List Char)
  | 0, _ => Option.none
  | fuel + 1, cs =>
      match jsonVal fuel cs with
      | some (v, r1) =>
          (match skipWs r1 with
           | ',' :: r2 => (jsonItems fuel r2).map fun (xs, r3) => (v :: xs, r3)
           | ']' :: r2 => some ([v], r2)
           | _ => Option.none)
      | Option.none => Option.none

end

/-- Parsing `json.loads`.  The fuel `s.length + 1` bounds the recursion depth,
which grows by at least one consumed character per level. -/
def jsonLoads (s : String) : Except PyErr Py :=
  match jsonVal (s.length + 1) s.data with
  | some (v, rest) =>
      if (skipWs rest).isEmpty then .ok v else .error .jsonDecodeError
  | Option.none => .error .jsonDecodeError

/-! ### The regular-expression searches of `_extract_rsc_data`

Each regex of the source is compiled here into an explicit leftmost-match
search: `reFind` tries the pattern matcher at every start position, left to
right, exactly as `re.search` does. -/

/-- Try a position matcher at each suffix, leftmost first (`re.search`). -/
def reFind (m : List Char → Option (List Char)) : List Char → Option (List Char)
  | [] => m []
  | c :: cs =>
      match m (c :: cs) with
      | some r => some r
      | Option.none => reFind m cs

/-- The literal prefix of the description regex. -/
def descLit : List Char := "\"description\",\"content\":\"".data

/-- Matcher for `"description","content":"([^"]*)"` anchored at the current
position: the literal prefix, then the capture of non-quote characters,
which must be closed by a quote. -/
def descMatchAt (cs : List Char) : Option (List Char) :=
  if descLit.isPrefixOf cs then
    let rest := cs.drop descLit.length
    let cap := rest.takeWhile fun c => !(c == '"')
    if cap.length < rest.length then some cap else Option.none
  else Option.none

/-- Matcher for `rapidapi\.com/([^/]+)/` anchored at the current position:
the literal host marker, a non-empty run of non-slash characters, then a
slash. -/
def provMatchAt (cs : List Char) : Option (List Char) :=
  let lit := "rapidapi.com/".data
  if lit.isPrefixOf cs then
    let rest := cs.drop lit.length
    let seg := rest.takeWhile fun c => !(c == '/')
    if 0 < seg.length && seg.length < rest.length then some seg else Option.none
  else Option.none

/-- Python `\s`. -/
def pyWs (c : Char) : Bool :=
  c == ' ' || c == '\t' || c == '\n' || c == '\r' ||
  c == '\x0b' || c == '\x0c'

/-- Matcher for `LIT\s*(\[.*?\])` (with `re.DOTALL`) anchored at the current
position: the literal, optional whitespace, then a bracketed capture ending
at the first `]` (the non-greedy `.*?`). -/
def bracketMatchAt (lit : List Char) (cs : List Char) : Option (List Char) :=
  if lit.isPrefixOf cs then
    let rest := (cs.drop lit.length).dropWhile pyWs
    match rest with
    | '[' :: r2 =>
        let inner := r2.takeWhile fun c => !(c == ']')
        if inner.length < r2.length then some ('[' :: (inner ++ [']']))
        else Option.none
    | _ => Option.none
  else Option.none

/-! ### Numeric coercions `float(...)` and `int(...)` -/

/-- Conversion `float(str)` for plain decimal literals (optional sign, digits with an
optional fractional part, surrounding whitespace), as an exact scaled
decimal. -/
def strToFloatDec (s : String) : Option (Int × Nat) :=
  let cs := (s.data.dropWhile pyWs).reverse.dropWhile pyWs |>.reverse
  let (neg, cs1) := match cs with
    | '-' :: t => (true, t)
    | '+' :: t => (false, t)
    | _ => (false, cs)
  let ds := cs1.takeWhile Char.isDigit
  let cs2 := cs1.drop ds.length
  match cs2 with
  | [] =>
      if ds.isEmpty then Option.none
      else
        some (if neg then -(digitsVal ds : Int) else (digitsVal ds : Int), 0)
  | '.' :: cs3 =>
      let fs := cs3.takeWhile Char.isDigit
      let cs4 := cs3.drop fs.length
      if cs4.isEmpty && !(ds.isEmpty && fs.isEmpty) then
        let mant : Int :=
          (digitsVal ds * 10 ^ fs.length + digitsVal fs : Int)
        some (if neg then -mant else mant, fs.length)
      else Option.none
  | _ => Option.none

/-- Conversion `int(str)` for plain integer literals. -/
def strToInt (s : String) : Option Int :=
  let cs := (s.data.dropWhile pyWs).reverse.dropWhile pyWs |>.reverse
  let (neg, cs1) := match cs with
    | '-' :: t => (true, t)
    | '+' :: t => (false, t)
    | _ => (false, cs)
  let ds := cs1.takeWhile Char.isDigit
  if ds.isEmpty || !(cs1.drop ds.length).isEmpty then Option.none
  else some (if neg then -(digitsVal ds : Int) else (digitsVal ds : Int))

/-- Coercion `float(v)`: identity on floats, exact conversion of ints and bools,
string parsing; other operands raise `TypeError`. -/
def pyFloat : Py → Except PyErr Py
  | .float m e => .ok (.float m e)
  | .int n => .ok (.float n 0)
  | .bool b => .ok (.float (if b then 1 else 0) 0)
  | .str s =>
      match strToFloatDec s with
      | some (m, e) => .ok (.float m e)
      | Option.none => .error .valueError
  | _ => .error .typeError

/-- Coercion `int(v)`: identity on ints, truncation toward zero of floats, string
parsing; other operands raise `TypeError`. -/
def pyInt : Py → Except PyErr Py
  | .int n => .ok (.int n)
  | .float m e => .ok (.int (m.tdiv ((10 : Int) ^ e)))
  | .bool b => .ok (.int (if b then 1 else 0))
  | .str s =>
      match strToInt s with
      | some n => .ok (.int n)
      | Option.none => .error .valueError
  | _ => .error .typeError

/-! ### Client state and external environment -/

/-- The mutable state of `EnhancedChromeClient` relevant to the network
monitoring subsystem (the lock serialises handler invocations, which the
embedding reflects by treating each handler call as one atomic step). -/
structure ClientState where
  network_monitoring : Bool
  network_requests : List Py
  network_responses : List Py
  max_network_entries : Nat

/-- Constructor `__init__`: monitoring off, empty buffers, cap 1000. -/
def initClient : ClientState :=
  { network_monitoring := false
    network_requests := []
    network_responses := []
    max_network_entries := 1000 }

/-- Modelled from the spec: the external collaborators that are out of
scope of the source module — the opaque browser driver handle
(`execute_cdp_cmd`, `add_cdp_listener`, `get`, `execute_script`, and the
parent class's `_get_chrome_driver` and `driver` attribute) and the static
assessment routine `assess_api` of the parent `ChromeClient` (not under
`src/`).  Each CDP command either succeeds or raises, recorded as a
boolean; `assess_api` is an opaque result mapping; `cdpBody` is the body
text returned by `Network.getResponseBody` (`None` for a missing body or a
raising command); `requestEvents`/`responseEvents` are the raw CDP event
messages the driver delivers to the two handlers during a monitored
session, in arrival order. -/
structure Env where
  getDriverOk : Bool
  enableOk : Bool
  addListenReqOk : Bool
  addListenRespOk : Bool
  disableOk : Bool
  driverPresent : Bool
  navOk : Bool
  scriptOk : Bool
  staticResult : List (String × Py)
  cdpBody : Py → Option String
  requestEvents : List Py
  responseEvents : List Py

/-- The driver commands a call can issue, for stating no-op properties. -/
inductive Cmd where
  | enable
  | listenReq
  | listenResp
  | disable
  deriving Repr, DecidableEq

/-! ### Event normalisation (`_network_request_handler`,
`_network_response_handler`) -/

/-- Is the message a dict with a `params` key (the standard CDP shape)? -/
def isStdCdp (message : Py) : Bool :=
  match message with
  | .dict kvs => (dictFind kvs "params").isSome
  | _ => false

/-- The record built by `_network_request_handler` from a raw message, or
the exception its construction raises (caught by the handler, which then
drops the event). -/
def projectRequestData (message : Py) : Except PyErr Py :=
  if isStdCdp message then do
    let params ← pySubscr message "params"
    let requestId ← pyGet params "requestId"
    let reqSub ← pyGetDefault params "request" (Py.dict [])
    let url ← pyGet reqSub "url"
    let method ← pyGet reqSub "method"
    let headers ← pyGetDefault reqSub "headers" (Py.dict [])
    let timestamp ← pyGet params "timestamp"
    let ty ← pyGet params "type"
    let postData ← pyGet reqSub "postData"
    return Py.dict [("requestId", requestId), ("url", url),
      ("method", method), ("headers", headers), ("timestamp", timestamp),
      ("type", ty), ("postData", postData)]
  else do
    let requestId ← pyGet message "requestId"
    let reqOpt ← pyGet message "request"
    let url ← if reqOpt.truthy then do
        let r ← pyGetDefault message "request" (Py.dict [])
        pyGet r "url"
      else pyGet message "url"
    let method ← if reqOpt.truthy then do
        let r ← pyGetDefault message "request" (Py.dict [])
        pyGet r "method"
      else pyGet message "method"
    let headers ← if reqOpt.truthy then do
        let r ← pyGetDefault message "request" (Py.dict [])
        pyGetDefault r "headers" (Py.dict [])
      else pyGetDefault message "headers" (Py.dict [])
    let timestamp ← pyGet message "timestamp"
    let ty ← pyGet message "type"
    let postData ← if reqOpt.truthy then do
        let r ← pyGetDefault message "request" (Py.dict [])
        pyGet r "postData"
      else pyGet message "postData"
    return Py.dict [("requestId", requestId), ("url", url),
      ("method", method), ("headers", headers), ("timestamp", timestamp),
      ("type", ty), ("postData", postData)]

/-- The record built by `_network_response_handler` from a raw message. -/
def projectResponseData (message : Py) : Except PyErr Py :=
  if isStdCdp message then do
    let params ← pySubscr message "params"
    let requestId ← pyGet params "requestId"
    let respSub ← pyGetDefault params "response" (Py.dict [])
    let url ← pyGet respSub "url"
    let status ← pyGet respSub "status"
    let statusText ← pyGet respSub "statusText"
    let headers ← pyGetDefault respSub "headers" (Py.dict [])
    let mimeType ← pyGet respSub "mimeType"
    let timestamp ← pyGet params "timestamp"
    let ty ← pyGet params "type"
    return Py.dict [("requestId", requestId), ("url", url),
      ("status", status), ("statusText", statusText), ("headers", headers),
      ("mimeType", mimeType), ("timestamp", timestamp), ("type", ty)]
  else do
    let requestId ← pyGet message "requestId"
    let respOpt ← pyGet message "response"
    let url ← if respOpt.truthy then do
        let r ← pyGetDefault message "response" (Py.dict [])
        pyGet r "url"
      else pyGet message "url"
    let status ← if respOpt.truthy then do
        let r ← pyGetDefault message "response" (Py.dict [])
        pyGet r "status"
      else pyGet message "status"
    let statusText ← if respOpt.truthy then do
        let r ← pyGetDefault message "response" (Py.dict [])
        pyGet r "statusText"
      else pyGet message "statusText"
    let headers ← if respOpt.truthy then do
        let r ← pyGetDefault message "response" (Py.dict [])
        pyGetDefault r "headers" (Py.dict [])
      else pyGetDefault message "headers" (Py.dict [])
    let mimeType ← if respOpt.truthy then do
        let r ← pyGetDefault message "response" (Py.dict [])
        pyGet r "mimeType"
      else pyGet message "mimeType"
    let timestamp ← pyGet message "timestamp"
    let ty ← pyGet message "type"
    return Py.dict [("requestId", requestId), ("url", url),
      ("status", status), ("statusText", statusText), ("headers", headers),
      ("mimeType", mimeType), ("timestamp", timestamp), ("type", ty)]

/-- One handler invocation on a buffer, generically in the projection: if
the buffer has reached the cap, `pop(0)` first (on an empty buffer the pop
raises `IndexError`, caught by the handler's `except`, leaving the buffer
unchanged); then build the record and append it, dropping the event if the
projection raises.  The eviction precedes the projection, as in the
source. -/
def bufStep (proj : Py → Except PyErr Py) (cap : Nat) (buf : List Py)
    (message : Py) : List Py :=
  if buf.length ≥ cap then
    match buf with
    | [] => []
    | _ :: t =>
        match proj message with
        | .ok r => t ++ [r]
        | .error _ => t
  else
    match proj message with
    | .ok r => buf ++ [r]
    | .error _ => buf

/-- Handler `_network_request_handler` acting on the request buffer. -/
def networkRequestHandler (cap : Nat) (buf : List Py) (message : Py) :
    List Py :=
  if buf.length ≥ cap then
    match buf with
    | [] => []
    | _ :: t =>
        match projectRequestData message with
        | .ok r => t ++ [r]
        | .error _ => t
  else
    match projectRequestData message with
    | .ok r => buf ++ [r]
    | .error _ => buf

/-- Handler `_network_response_handler` acting on the response buffer. -/
def networkResponseHandler (cap : Nat) (buf : List Py) (message : Py) :
    List Py :=
  if buf.length ≥ cap then
    match buf with
    | [] => []
    | _ :: t =>
        match projectResponseData message with
        | .ok r => t ++ [r]
        | .error _ => t
  else
    match projectResponseData message with
    | .ok r => buf ++ [r]
    | .error _ => buf

/-! ### Monitoring lifecycle -/

/-- Lifecycle `start_network_monitoring`: no-op success when already monitoring;
otherwise obtain the driver, enable the Network domain and register the
two listeners, setting the flag only after all three commands succeed.
Any raising step leaves the flag unchanged and returns `False`.  The third
component lists the driver commands issued (including a command that
raised). -/
def start_network_monitoring (env : Env) (s : ClientState) :
    Bool × ClientState × List Cmd :=
  if s.network_monitoring then (true, s, [])
  else if !env.getDriverOk then (false, s, [])
  else if !env.enableOk then (false, s, [Cmd.enable])
  else if !env.addListenReqOk then (false, s, [Cmd.enable, Cmd.listenReq])
  else if !env.addListenRespOk then
    (false, s, [Cmd.enable, Cmd.listenReq, Cmd.listenResp])
  else (true, { s with network_monitoring := true },
    [Cmd.enable, Cmd.listenReq, Cmd.listenResp])

/-- Lifecycle `stop_network_monitoring`: no-op success when already stopped;
otherwise issue `Network.disable` when a driver handle exists.  The flag
is cleared only after the disable succeeds (or is skipped): a raising
disable returns `False` with the flag still set, because the assignment
sits after the command inside the `try`. -/
def stop_network_monitoring (env : Env) (s : ClientState) :
    Bool × ClientState × List Cmd :=
  if !s.network_monitoring then (true, s, [])
  else if env.driverPresent then
    if env.disableOk then
      (true, { s with network_monitoring := false }, [Cmd.disable])
    else (false, s, [Cmd.disable])
  else (true, { s with network_monitoring := false }, [])

/-! ### Buffer queries -/

/-- The filter comprehension of `get_network_responses`: keep records
whose lower-cased `url` contains the lower-cased filter.  The lookup
`resp.get` with an empty-string default falls back only when the key is
absent; a record whose `url`
is `None` reaches `.lower()` and raises `AttributeError`, aborting the
whole comprehension. -/
def respFilter (f : String) : List Py → Except PyErr (List Py)
  | [] => .ok []
  | r :: t => do
      let u ← pyGetDefault r "url" (Py.str "")
      match u with
      | .str s =>
          let rest ← respFilter f t
          if containsSub (pyLower f).data (pyLower s).data then
            .ok (r :: rest)
          else .ok rest
      | _ => .error .attributeError

/-- Query `get_network_responses`: with a truthy filter, the filtered
comprehension; otherwise a snapshot copy of the whole buffer. -/
def get_network_responses (responses : List Py) (url_filter : Option String) :
    Except PyErr (List Py) :=
  match url_filter with
  | some f => if f == "" then .ok responses else respFilter f responses
  | Option.none => .ok responses

/-- Fetcher `get_response_body`: `None` with a warning when monitoring is off;
otherwise the `body` field of the CDP command result when a driver handle
exists (any fetch exception is caught and yields `None`), and `None` when
it does not. -/
def get_response_body (env : Env) (s : ClientState) (request_id : Py) :
    Option String :=
  if !s.network_monitoring then Option.none
  else if env.driverPresent then env.cdpBody request_id
  else Option.none

/-- Reset `clear_network_data`: atomically empty both buffers. -/
def clear_network_data (s : ClientState) : ClientState :=
  { s with network_requests := [], network_responses := [] }

/-! ### Structured-payload (RSC) extractor `_extract_rsc_data` -/

/-- Outcome of processing one record: continue with the next record, or
abort the whole loop (an exception outside the per-record `try`, caught by
the outer `except`, which returns the data accumulated so far). -/
inductive RStep where
  | cont
  | halt
  deriving Repr, DecidableEq

/-- The description section of the per-record block: leftmost match of
`"description","content":"([^"]*)"` against the body. -/
def rscDescStep (body : String) (acc : List (String × Py)) :
    List (String × Py) :=
  match reFind descMatchAt body.data with
  | some cap => dictSet acc "description" (.str (String.mk cap))
  | Option.none => acc

/-- The provider section: when the url mentions the marketplace host, the
path segment after `rapidapi.com/`. -/
def rscProviderStep (url : String) (acc : List (String × Py)) :
    List (String × Py) :=
  if strIn "rapidapi.com" url then
    match reFind provMatchAt url.data with
    | some seg => dictSet acc "provider" (.str (String.mk seg))
    | Option.none => acc
  else acc

/-- The pricing section: when the lower-cased url mentions `pricing`,
capture a `"plans": [...]` literal and JSON-parse it, silently ignoring a
parse failure. -/
def rscPricingStep (url body : String) (acc : List (String × Py)) :
    List (String × Py) :=
  if strIn "pricing" (pyLower url) then
    match reFind (bracketMatchAt "\"plans\":".data) body.data with
    | some cap =>
        match jsonLoads (String.mk cap) with
        | .ok plans => dictSet acc "pricing" (Py.dict [("tiers", plans)])
        | .error _ => acc
    | Option.none => acc
  else acc

/-- The endpoints section: when the lower-cased url mentions `endpoint` or
`playground`, capture an `"endpoints": [...]` literal and JSON-parse it. -/
def rscEndpointsStep (url body : String) (acc : List (String × Py)) :
    List (String × Py) :=
  if strIn "endpoint" (pyLower url) || strIn "playground" (pyLower url) then
    match reFind (bracketMatchAt "\"endpoints\":".data) body.data with
    | some cap =>
        match jsonLoads (String.mk cap) with
        | .ok eps => dictSet acc "endpoints" eps
        | .error _ => acc
    | Option.none => acc
  else acc

/-- One iteration of the `_extract_rsc_data` loop.  Exceptions raised
before the per-record `try` (a non-dict record, or the `/api/`-in-url
test on a non-string `url` — the event normaliser yields a string or
`None` there, and that containment test on `None` raises `TypeError`) abort the loop;
everything after the body fetch sits inside the per-record `try`, whose
handler just continues. -/
def rscRecordStep (fetch : Py → Option String) (acc : List (String × Py))
    (r : Py) : List (String × Py) × RStep :=
  match pyGet r "requestId" with
  | .error _ => (acc, .halt)
  | .ok requestId =>
      match pyGetDefault r "url" (Py.str "") with
      | .error _ => (acc, .halt)
      | .ok urlV =>
          if !requestId.truthy then (acc, .cont)
          else
            match urlV with
            | .str url =>
                if !strIn "/api/" url then (acc, .cont)
                else
                  match fetch requestId with
                  | Option.none => (acc, .cont)
                  | some body =>
                      if body == "" then (acc, .cont)
                      else
                        (rscEndpointsStep url body
                          (rscPricingStep url body
                            (rscProviderStep url
                              (rscDescStep body acc))), .cont)
            | _ => (acc, .halt)

/-- The `for` loop of `_extract_rsc_data`. -/
def extractRscLoop (fetch : Py → Option String) :
    List Py → List (String × Py) → List (String × Py)
  | [], acc => acc
  | r :: rest, acc =>
      match rscRecordStep fetch acc r with
      | (acc', .cont) => extractRscLoop fetch rest acc'
      | (acc', .halt) => acc'

/-- Extractor `_extract_rsc_data`, with the response-body fetch as an oracle. -/
def extractRscData (fetch : Py → Option String) (responses : List Py) :
    List (String × Py) :=
  extractRscLoop fetch responses []

/-! ### GraphQL extractor `_extract_graphql_data` -/

/-- Outcome of processing one record in the GraphQL loop: continue,
`break` out (a usable API-info object was found), or abort via the outer
`except`. -/
inductive GStep where
  | cont
  | brk
  | halt
  deriving Repr, DecidableEq

/-- The API-info selection chain of `_extract_graphql_data` over the
`data` value of a parsed envelope: `api`, `getApi`, `apiDetails`, then
`marketplace.api`, each guarded by a containment test, first hit wins.
`data` need not be a dict, so each step may raise (escaping to the outer
`except`). -/
def apiInfoSelect (data : Py) : Except PyErr (Option Py) := do
  if ← pyContains "api" data then
    return some (← pySubscr data "api")
  else if ← pyContains "getApi" data then
    return some (← pySubscr data "getApi")
  else if ← pyContains "apiDetails" data then
    return some (← pySubscr data "apiDetails")
  else if ← pyContains "marketplace" data then
    let m ← pySubscr data "marketplace"
    if ← pyContains "api" m then
      return some (← pySubscr m "api")
    else return Option.none
  else return Option.none

/-- A field access against the API-info object that carries the
accumulated data along on failure (the dict built so far survives an
exception, which the outer `except` then surfaces by returning it). -/
def pgetAcc (info : Py) (k : String) (acc : List (String × Py)) :
    Except (List (String × Py) × PyErr) Py :=
  match pyGet info k with
  | .ok v => .ok v
  | .error e => .error (acc, e)

/-- Lift a coercion result, carrying the accumulated data on failure. -/
def coerceAcc (r : Except PyErr Py) (acc : List (String × Py)) :
    Except (List (String × Py) × PyErr) Py :=
  match r with
  | .ok v => .ok v
  | .error e => .error (acc, e)

/-- The field-extraction block run on a usable API-info object: copy the
recognised truthy fields, coerce `rating` with `float` and `reviewCount`
with `int` (gated on `is not None`), take `provider` or `providerName`,
and fill `pricing` and `endpoints` from their priority chains.  A raising
step aborts with the fields extracted so far. -/
def extractApiFields (acc0 : List (String × Py)) (info : Py) :
    Except (List (String × Py) × PyErr) (List (String × Py)) := do
  let nameV ← pgetAcc info "name" acc0
  let a1 := if nameV.truthy then dictSet acc0 "name" nameV else acc0
  let descV ← pgetAcc info "description" a1
  let a2 := if descV.truthy then dictSet a1 "description" descV else a1
  let provV ← pgetAcc info "provider" a2
  let provNameV ← pgetAcc info "providerName" a2
  let a3 := if provV.truthy || provNameV.truthy then
      dictSet a2 "provider" (if provV.truthy then provV else provNameV)
    else a2
  let ratingV ← pgetAcc info "rating" a3
  let a4 ← match ratingV with
    | .none => pure a3
    | v => do
        let fv ← coerceAcc (pyFloat v) a3
        pure (dictSet a3 "rating" fv)
  let reviewV ← pgetAcc info "reviewCount" a4
  let a5 ← match reviewV with
    | .none => pure a4
    | v => do
        let iv ← coerceAcc (pyInt v) a4
        pure (dictSet a4 "reviewCount" iv)
  let popV ← pgetAcc info "popularity" a5
  let a6 := if popV.truthy then dictSet a5 "popularity" popV else a5
  let slV ← pgetAcc info "serviceLevel" a6
  let a7 := if slV.truthy then dictSet a6 "serviceLevel" slV else a6
  let docV ← pgetAcc info "documentationUrl" a7
  let a8 := if docV.truthy then dictSet a7 "documentationUrl" docV else a7
  let hasPricing := match pyContains "pricing" info with
    | .ok b => b
    | .error _ => false
  let a9 ← if hasPricing then do
      let pv ← coerceAcc (pySubscr info "pricing") a8
      if pv.truthy then pure (dictSet a8 "pricing" pv)
      else pricingChainTiers info a8
    else pricingChainTiers info a8
  let hasEndpoints := match pyContains "endpoints" info with
    | .ok b => b
    | .error _ => false
  let a10 ← if hasEndpoints then do
      let ev ← coerceAcc (pySubscr info "endpoints") a9
      if ev.truthy then pure (dictSet a9 "endpoints" ev)
      else endpointsChain info a9
    else endpointsChain info a9
  return a10
where
  /-- Chain for `pricingTiers` then `plans` (the two `elif` arms). -/
  pricingChainTiers (info : Py) (acc : List (String × Py)) :
      Except (List (String × Py) × PyErr) (List (String × Py)) := do
    let hasTiers := match pyContains "pricingTiers" info with
      | .ok b => b
      | .error _ => false
    if hasTiers then do
      let tv ← coerceAcc (pySubscr info "pricingTiers") acc
      pure (dictSet acc "pricing" (Py.dict [("tiers", tv)]))
    else
      let hasPlans := match pyContains "plans" info with
        | .ok b => b
        | .error _ => false
      if hasPlans then do
        let pv ← coerceAcc (pySubscr info "plans") acc
        pure (dictSet acc "pricing" (Py.dict [("tiers", pv)]))
      else pure acc
  /-- Chain for `methods` then `operations` (the two `elif` arms). -/
  endpointsChain (info : Py) (acc : List (String × Py)) :
      Except (List (String × Py) × PyErr) (List (String × Py)) := do
    let hasMethods := match pyContains "methods" info with
      | .ok b => b
      | .error _ => false
    if hasMethods then do
      let mv ← coerceAcc (pySubscr info "methods") acc
      pure (dictSet acc "endpoints" mv)
    else
      let hasOps := match pyContains "operations" info with
        | .ok b => b
        | .error _ => false
      if hasOps then do
        let ov ← coerceAcc (pySubscr info "operations") acc
        pure (dictSet acc "endpoints" ov)
      else pure acc

/-- One iteration of the `_extract_graphql_data` loop: skip records with a
falsy `requestId` or falsy body; a body that fails `json.loads` is skipped
by the inner `except json.JSONDecodeError`; an envelope with a `data`
member goes through the selection chain, and a truthy API-info object
triggers field extraction followed by `break`. -/
def graphqlRecordStep (fetch : Py → Option String)
    (acc : List (String × Py)) (r : Py) : List (String × Py) × GStep :=
  match pyGet r "requestId" with
  | .error _ => (acc, .halt)
  | .ok requestId =>
      if !requestId.truthy then (acc, .cont)
      else
        match fetch requestId with
        | Option.none => (acc, .cont)
        | some body =>
            if body == "" then (acc, .cont)
            else
              match jsonLoads body with
              | .error _ => (acc, .cont)
              | .ok response_data =>
                  match pyContains "data" response_data with
                  | .error _ => (acc, .halt)
                  | .ok false => (acc, .cont)
                  | .ok true =>
                      match pySubscr response_data "data" with
                      | .error _ => (acc, .halt)
                      | .ok data =>
                          match apiInfoSelect data with
                          | .error _ => (acc, .halt)
                          | .ok sel =>
                              let info := sel.getD Py.none
                              if !info.truthy then (acc, .cont)
                              else
                                match extractApiFields acc info with
                                | .ok acc' => (acc', .brk)
                                | .error (acc', _) => (acc', .halt)

/-- The `for` loop of `_extract_graphql_data`. -/
def extractGraphqlLoop (fetch : Py → Option String) :
    List Py → List (String × Py) → List (String × Py)
  | [], acc => acc
  | r :: rest, acc =>
      match graphqlRecordStep fetch acc r with
      | (acc', .cont) => extractGraphqlLoop fetch rest acc'
      | (acc', .brk) => acc'
      | (acc', .halt) => acc'

/-- Extractor `_extract_graphql_data`, with the response-body fetch as an oracle. -/
def extractGraphqlData (fetch : Py → Option String) (responses : List Py) :
    List (String × Py) :=
  extractGraphqlLoop fetch responses []

/-! ### Merge and orchestrator (`assess_api_enhanced`) -/

/-- The merge loop: for every extracted field, overwrite the baseline
entry when the value is truthy and differs (`!=`, against the current
`result.get(key)`, which is `None` for an absent key). -/
def mergeEnhanced (result enhanced : List (String × Py)) :
    List (String × Py) :=
  enhanced.foldl
    (fun res kv =>
      if kv.2.truthy && !(Py.eqb kv.2 ((dictFind res kv.1).getD Py.none)) then
        dictSet res kv.1 kv.2
      else res)
    result

/-- The `except` path of `assess_api_enhanced`: best-effort stop, then the
static assessment result. -/
def assessFallback (env : Env) (s : ClientState) :
    List (String × Py) × ClientState :=
  (env.staticResult, (stop_network_monitoring env s).2.1)

/-- Orchestrator `assess_api_enhanced`: clear the buffers; start monitoring (returning
the static result directly when that fails); navigate and run the
interaction script (any raise falls back); with the handlers having
consumed the session's CDP events, query the two filtered response sets
(a raising query falls back); run both extractors; merge; stop; return.
The static assessment and the fixed waits are opaque. -/
def assess_api_enhanced (env : Env) (s : ClientState) :
    List (String × Py) × ClientState :=
  let s1 := clear_network_data s
  let st := start_network_monitoring env s1
  if !st.1 then (env.staticResult, st.2.1)
  else
    let s2 := st.2.1
    if !env.getDriverOk || !env.navOk then assessFallback env s2
    else if !env.scriptOk then assessFallback env s2
    else
      let s3 := { s2 with
        network_requests := env.requestEvents.foldl
          (networkRequestHandler s2.max_network_entries) s2.network_requests
        network_responses := env.responseEvents.foldl
          (networkResponseHandler s2.max_network_entries)
          s2.network_responses }
      let result := env.staticResult
      match get_network_responses s3.network_responses (some "/api/") with
      | .error _ => assessFallback env s3
      | .ok api_responses =>
          match get_network_responses s3.network_responses (some "graphql") with
          | .error _ => assessFallback env s3
          | .ok graphql_responses =>
              let fetch := get_response_body env s3
              let enhanced0 : List (String × Py) := []
              let enhanced1 := if api_responses.isEmpty then enhanced0
                else
                  let rsc := extractRscData fetch api_responses
                  if rsc.isEmpty then enhanced0 else dictUpdate enhanced0 rsc
              let enhanced2 := if graphql_responses.isEmpty then enhanced1
                else
                  let g := extractGraphqlData fetch graphql_responses
                  if g.isEmpty then enhanced1 else dictUpdate enhanced1 g
              let merged := if enhanced2.isEmpty then result
                else mergeEnhanced result enhanced2
              let stp := stop_network_monitoring env s3
              (merged, stp.2.1)

/-! ### Auxiliary definitions for the statements -/

/-- The successful value of an `Except`, if any. -/
def exOk : Except PyErr Py → Option Py
  | .ok v => some v
  | .error _ => Option.none

/-- Did the computation succeed? -/
def exIsOk : Except PyErr Py → Bool
  | .ok _ => true
  | .error _ => false

/-- The records successfully projected from a message sequence, in arrival
order. -/
def okRecords (proj : Py → Except PyErr Py) (msgs : List Py) : List Py :=
  msgs.filterMap fun m => exOk (proj m)

/-- The last `n` elements of a list (all of it when it is shorter). -/
def lastN (n : Nat) (l : List Py) : List Py := l.drop (l.length - n)

/-- Modelled from the spec: "Looks for an API-info object at one of four
known paths under `data`: `api`, `getApi`, `apiDetails`, or
`marketplace.api` (checked in that priority order; first present object
wins)" — the specification-side selection function, to be compared with
the source-derived `apiInfoSelect`. -/
def specApiInfoPath (d : List (String × Py)) : Option Py :=
  match dictFind d "api" with
  | some v => some v
  | Option.none =>
      match dictFind d "getApi" with
      | some v => some v
      | Option.none =>
          match dictFind d "apiDetails" with
          | some v => some v
          | Option.none =>
              match dictFind d "marketplace" with
              | some (Py.dict m) => dictFind m "api"
              | _ => Option.none

/-! ## Small reduction lemmas for the `Except` monad -/

theorem pyBind_ok {α β : Type} (a : α) (f : α → Except PyErr β) :
    (Except.ok a : Except PyErr α) >>= f = f a := rfl

theorem pyBind_err {α β : Type} (e : PyErr) (f : α → Except PyErr β) :
    (Except.error e : Except PyErr α) >>= f = Except.error e := rfl

theorem pyPure_def {α : Type} (a : α) :
    (pure a : Except PyErr α) = Except.ok a := rfl

/-! ## Association-list lemmas -/

theorem dictFind_dictSet_self (l : List (String × Py)) (k : String) (v : Py) :
    dictFind (dictSet l k v) k = some v := by
  induction l with
  | nil => simp [dictSet, dictFind]
  | cons hd t ih =>
      obtain ⟨k0, w⟩ := hd
      by_cases h : k0 = k
      · simp [dictSet, dictFind, h]
      · simp [dictSet, dictFind, beq_eq_false_iff_ne.mpr h, ih]

theorem dictFind_dictSet_ne (l : List (String × Py)) (k k' : String) (v : Py)
    (h : k' ≠ k) : dictFind (dictSet l k v) k' = dictFind l k' := by
  induction l with
  | nil => simp [dictSet, dictFind, beq_eq_false_iff_ne.mpr (Ne.symm h)]
  | cons hd t ih =>
      obtain ⟨k0, w⟩ := hd
      by_cases h0 : k0 = k
      · subst h0
        simp [dictSet, dictFind, beq_eq_false_iff_ne.mpr (Ne.symm h)]
      · simp only [dictSet, beq_eq_false_iff_ne.mpr h0, Bool.false_eq_true,
          if_false]
        simp [dictFind, ih]

theorem mem_dictKeys_dictSet (l : List (String × Py)) (k a : String) (v : Py)
    (h : a ∈ dictKeys (dictSet l k v)) : a ∈ dictKeys l ∨ a = k := by
  induction l with
  | nil => simpa [dictSet, dictKeys] using h
  | cons hd t ih =>
      obtain ⟨k0, w⟩ := hd
      by_cases h0 : k0 = k
      · subst h0
        simp only [dictSet, beq_self_eq_true, if_true, dictKeys,
          List.map_cons, List.mem_cons] at h ⊢
        tauto
      · simp only [dictSet, beq_eq_false_iff_ne.mpr h0, Bool.false_eq_true,
          if_false, dictKeys, List.map_cons, List.mem_cons] at h ⊢
        rcases h with h | h
        · tauto
        · rcases ih h with h' | h' <;> tauto

theorem nodup_dictKeys_dictSet (l : List (String × Py)) (k : String) (v : Py)
    (h : (dictKeys l).Nodup) : (dictKeys (dictSet l k v)).Nodup := by
  induction l with
  | nil => simp [dictSet, dictKeys]
  | cons hd t ih =>
      obtain ⟨k0, w⟩ := hd
      simp only [dictKeys, List.map_cons, List.nodup_cons] at h
      by_cases h0 : k0 = k
      · subst h0
        simpa [dictSet, dictKeys] using h
      · simp only [dictSet, beq_eq_false_iff_ne.mpr h0, Bool.false_eq_true,
          if_false, dictKeys, List.map_cons, List.nodup_cons]
        refine ⟨fun hmem => ?_, ih h.2⟩
        rcases mem_dictKeys_dictSet t k k0 v hmem with h' | h'
        · exact h.1 h'
        · exact h0 h'

theorem nodup_dictKeys_dictUpdate (d other : List (String × Py))
    (h : (dictKeys d).Nodup) : (dictKeys (dictUpdate d other)).Nodup := by
  induction other generalizing d with
  | nil => simpa [dictUpdate] using h
  | cons hd t ih =>
      obtain ⟨k, v⟩ := hd
      simpa [dictUpdate] using
        ih (dictSet d k v) (nodup_dictKeys_dictSet d k v h)

theorem dictUpdate_cons (d : List (String × Py)) (k0 : String) (v0 : Py)
    (t : List (String × Py)) :
    dictUpdate d ((k0, v0) :: t) = dictUpdate (dictSet d k0 v0) t := by
  simp [dictUpdate, List.foldl_cons]

theorem dictFind_dictUpdate_of_not_mem (other : List (String × Py))
    (k : String) :
    ∀ d : List (String × Py), k ∉ dictKeys other →
      dictFind (dictUpdate d other) k = dictFind d k := by
  induction other with
  | nil => intro d _; simp [dictUpdate]
  | cons hd t ih =>
      obtain ⟨k0, v0⟩ := hd
      intro d h
      simp only [dictKeys, List.map_cons, List.mem_cons, not_or] at h
      rw [dictUpdate_cons,
        ih (dictSet d k0 v0) (by simpa [dictKeys] using h.2),
        dictFind_dictSet_ne d k0 k v0 h.1]

theorem dictFind_dictUpdate_of_find (other : List (String × Py))
    (k : String) (v : Py) :
    ∀ d : List (String × Py), (dictKeys other).Nodup →
      dictFind other k = some v →
      dictFind (dictUpdate d other) k = some v := by
  induction other with
  | nil => intro d _ h; simp [dictFind] at h
  | cons hd t ih =>
      obtain ⟨k0, v0⟩ := hd
      intro d hnd h
      simp only [dictKeys, List.map_cons, List.nodup_cons] at hnd
      by_cases h0 : k0 = k
      · subst h0
        simp only [dictFind, beq_self_eq_true, if_true, Option.some.injEq] at h
        rw [dictUpdate_cons,
          dictFind_dictUpdate_of_not_mem t k0 (dictSet d k0 v0) hnd.1,
          dictFind_dictSet_self d k0 v0, h]
      · simp only [dictFind, beq_eq_false_iff_ne.mpr h0, Bool.false_eq_true,
          if_false] at h
        rw [dictUpdate_cons]
        exact ih (dictSet d k0 v0) hnd.2 h

/-! ## Merge lemmas -/

theorem mergeEnhanced_cons (base : List (String × Py)) (k0 : String)
    (v0 : Py) (t : List (String × Py)) :
    mergeEnhanced base ((k0, v0) :: t)
      = mergeEnhanced
          (if v0.truthy && !(Py.eqb v0 ((dictFind base k0).getD Py.none))
           then dictSet base k0 v0 else base) t := rfl

theorem mergeEnhanced_find_of_not_mem (enh : List (String × Py))
    (k : String) :
    ∀ base : List (String × Py), k ∉ dictKeys enh →
      dictFind (mergeEnhanced base enh) k = dictFind base k := by
  induction enh with
  | nil => intro base _; simp [mergeEnhanced]
  | cons hd t ih =>
      obtain ⟨k0, v0⟩ := hd
      intro base h
      simp only [dictKeys, List.map_cons, List.mem_cons, not_or] at h
      rw [mergeEnhanced_cons]
      by_cases hc : (v0.truthy
          && !(Py.eqb v0 ((dictFind base k0).getD Py.none))) = true
      · rw [if_pos hc, ih _ (by simpa [dictKeys] using h.2),
          dictFind_dictSet_ne base k0 k v0 h.1]
      · rw [if_neg hc, ih _ (by simpa [dictKeys] using h.2)]

/-- The pointwise characterisation of the merge loop: with unique
extracted keys, a field of the merged result is the extracted value
exactly when that value is truthy and differs from the baseline's, and
the baseline's value otherwise. -/
theorem mergeEnhanced_find (enh : List (String × Py)) (k : String) :
    ∀ base : List (String × Py), (dictKeys enh).Nodup →
      dictFind (mergeEnhanced base enh) k =
        match dictFind enh k with
        | some v =>
            if v.truthy && !(Py.eqb v ((dictFind base k).getD Py.none))
            then some v else dictFind base k
        | Option.none => dictFind base k := by
  induction enh with
  | nil => intro base _; simp [mergeEnhanced, dictFind]
  | cons hd t ih =>
      obtain ⟨k0, v0⟩ := hd
      intro base hnd
      simp only [dictKeys, List.map_cons, List.nodup_cons] at hnd
      rw [mergeEnhanced_cons]
      by_cases hk : k0 = k
      · subst hk
        rw [mergeEnhanced_find_of_not_mem t k0 _ hnd.1]
        simp only [dictFind, beq_self_eq_true, if_true]
        by_cases hc : (v0.truthy
            && !(Py.eqb v0 ((dictFind base k0).getD Py.none))) = true
        · rw [if_pos hc, if_pos hc, dictFind_dictSet_self base k0 v0]
        · rw [if_neg hc, if_neg hc]
      · have hfind : dictFind ((k0, v0) :: t) k = dictFind t k := by
          simp [dictFind, beq_eq_false_iff_ne.mpr hk]
        rw [hfind]
        by_cases hc : (v0.truthy
            && !(Py.eqb v0 ((dictFind base k0).getD Py.none))) = true
        · rw [if_pos hc, ih _ hnd.2,
            dictFind_dictSet_ne base k0 k v0 (Ne.symm hk)]
        · rw [if_neg hc, ih _ hnd.2]

/-! ## Capture-buffer lemmas -/

theorem lastN_of_length_le (n : Nat) (l : List Py) (h : l.length ≤ n) :
    lastN n l = l := by
  simp [lastN, Nat.sub_eq_zero_of_le h]

theorem lastN_length_le (n : Nat) (l : List Py) : (lastN n l).length ≤ n := by
  simp only [lastN, List.length_drop]
  omega

theorem lastN_absorb (n : Nat) (x y : List Py) :
    lastN n (lastN n x ++ y) = lastN n (x ++ y) := by
  rcases le_or_lt x.length n with h | h
  · rw [lastN_of_length_le n x h]
  · simp only [lastN, List.length_append, List.length_drop,
      List.drop_append_eq_append_drop, List.drop_drop]
    congr 1
    · congr 1
      omega
    · congr 1
      omega

/-- Both handlers are instances of the generic buffer step. -/
theorem networkRequestHandler_eq :
    networkRequestHandler = bufStep projectRequestData := rfl

theorem networkResponseHandler_eq :
    networkResponseHandler = bufStep projectResponseData := rfl

theorem bufStep_length_le (proj : Py → Except PyErr Py) (cap : Nat)
    (buf : List Py) (m : Py) (h : buf.length ≤ cap) :
    (bufStep proj cap buf m).length ≤ cap := by
  by_cases hge : buf.length ≥ cap
  · simp only [bufStep, if_pos hge]
    cases buf with
    | nil => simp
    | cons b t =>
        simp only [List.length_cons] at h
        cases hp : proj m <;> simp <;> omega
  · simp only [bufStep, if_neg hge]
    rw [Nat.not_le] at hge
    cases hp : proj m <;> simp <;> omega

theorem bufStep_ok (proj : Py → Except PyErr Py) (cap : Nat) (buf : List Py)
    (m : Py) (r : Py) (h : buf.length ≤ cap) (hm : proj m = .ok r) :
    bufStep proj cap buf m = lastN cap (buf ++ [r]) := by
  by_cases hge : buf.length ≥ cap
  · have heq : buf.length = cap := le_antisymm h hge
    cases buf with
    | nil =>
        have hc : cap = 0 := by simpa using heq.symm
        subst hc
        simp [bufStep, lastN]
    | cons b t =>
        simp only [List.length_cons] at heq
        have hstep : bufStep proj cap (b :: t) m = t ++ [r] := by
          simp only [bufStep, if_pos hge, hm]
        rw [hstep]
        have hlen : (b :: (t ++ [r])).length - cap = 1 := by
          simp only [List.length_append, List.length_cons, List.length_nil]
          omega
        simp only [lastN, List.cons_append, hlen, List.drop_one,
          List.tail_cons]
  · rw [Nat.not_le] at hge
    simp only [bufStep, if_neg (Nat.not_le.mpr hge), hm]
    rw [lastN_of_length_le]
    simp only [List.length_append, List.length_cons, List.length_nil]
    omega

theorem foldl_bufStep_length (proj : Py → Except PyErr Py) (cap : Nat)
    (msgs : List Py) :
    ∀ buf : List Py, buf.length ≤ cap →
      (List.foldl (bufStep proj cap) buf msgs).length ≤ cap := by
  induction msgs with
  | nil => intro buf h; simpa using h
  | cons m ms ih =>
      intro buf h
      rw [List.foldl_cons]
      exact ih _ (bufStep_length_le proj cap buf m h)

theorem foldl_bufStep_ok (proj : Py → Except PyErr Py) (cap : Nat)
    (msgs : List Py) :
    ∀ buf : List Py, buf.length ≤ cap →
      (∀ m ∈ msgs, exIsOk (proj m) = true) →
      List.foldl (bufStep proj cap) buf msgs
        = lastN cap (buf ++ okRecords proj msgs) := by
  induction msgs with
  | nil =>
      intro buf h _
      simp [okRecords, lastN_of_length_le cap buf h]
  | cons m ms ih =>
      intro buf h hall
      obtain ⟨r, hr⟩ : ∃ r, proj m = .ok r := by
        have hm := hall m (by simp)
        cases hp : proj m with
        | ok v => exact ⟨v, rfl⟩
        | error e => rw [hp] at hm; simp [exIsOk] at hm
      rw [List.foldl_cons, bufStep_ok proj cap buf m r h hr,
        ih _ (lastN_length_le _ _)
          (fun m' hm' => hall m' (List.mem_cons_of_mem _ hm')),
        lastN_absorb]
      have hrec : okRecords proj (m :: ms) = r :: okRecords proj ms := by
        simp [okRecords, hr, exOk]
      rw [hrec, List.append_assoc]
      rfl

theorem bufStep_err_at_cap (proj : Py → Except PyErr Py) (cap : Nat)
    (buf : List Py) (m : Py) (hlen : buf.length = cap) (hcap : 1 ≤ cap)
    (he : exIsOk (proj m) = false) : bufStep proj cap buf m = buf.drop 1 := by
  cases buf with
  | nil => rw [List.length_nil] at hlen; omega
  | cons b t =>
      simp only [List.length_cons] at hlen
      have hge : (b :: t).length ≥ cap := by
        simp only [List.length_cons]
        omega
      cases hp : proj m with
      | ok r => rw [hp] at he; simp [exIsOk] at he
      | error e =>
          simp [bufStep, if_pos hge, hp]
          omega

/-! ## Claim theorems -/

/-- C1: For every sequence of recorded request or response events, after
each handler invocation completes the corresponding buffer's length never
exceeds the cap (default 1000, the `max_network_entries` of the freshly
initialised client), and the retained entries are exactly the most
recently inserted `cap` entries in arrival order (insertion at the cap
removes the oldest, index-0, entry before appending). -/
theorem c1_buffer_bounded_and_recent :
    initClient.max_network_entries = 1000 ∧
    ∀ (cap : Nat) (reqMsgs respMsgs : List Py),
      (∀ m ∈ reqMsgs, exIsOk (projectRequestData m) = true) →
      (∀ m ∈ respMsgs, exIsOk (projectResponseData m) = true) →
      ((∀ k, (List.foldl (networkRequestHandler cap) []
          (reqMsgs.take k)).length ≤ cap) ∧
       List.foldl (networkRequestHandler cap) [] reqMsgs
         = lastN cap (okRecords projectRequestData reqMsgs) ∧
       (∀ k, (List.foldl (networkResponseHandler cap) []
          (respMsgs.take k)).length ≤ cap) ∧
       List.foldl (networkResponseHandler cap) [] respMsgs
         = lastN cap (okRecords projectResponseData respMsgs)) := by
  refine ⟨rfl, fun cap reqMsgs respMsgs hreq hresp => ?_⟩
  rw [networkRequestHandler_eq, networkResponseHandler_eq]
  refine ⟨fun k => foldl_bufStep_length _ cap _ [] (by simp), ?_,
    fun k => foldl_bufStep_length _ cap _ [] (by simp), ?_⟩
  · simpa using foldl_bufStep_ok projectRequestData cap reqMsgs []
      (by simp) hreq
  · simpa using foldl_bufStep_ok projectResponseData cap respMsgs []
      (by simp) hresp

/-- Witness for C1: at cap 2, three well-formed direct-format events leave
exactly the two most recent records, in arrival order. -/
theorem c1_buffer_bounded_and_recent_witness :
    List.foldl (networkRequestHandler 2) []
      [Py.dict [("requestId", Py.str "1"), ("url", Py.str "u1")],
       Py.dict [("requestId", Py.str "2"), ("url", Py.str "u2")],
       Py.dict [("requestId", Py.str "3"), ("url", Py.str "u3")]]
      = [Py.dict [("requestId", Py.str "2"), ("url", Py.str "u2"),
            ("method", Py.none), ("headers", Py.dict []),
            ("timestamp", Py.none), ("type", Py.none),
            ("postData", Py.none)],
         Py.dict [("requestId", Py.str "3"), ("url", Py.str "u3"),
            ("method", Py.none), ("headers", Py.dict []),
            ("timestamp", Py.none), ("type", Py.none),
            ("postData", Py.none)]] := by
  have h := (c1_buffer_bounded_and_recent.2 2
    [Py.dict [("requestId", Py.str "1"), ("url", Py.str "u1")],
     Py.dict [("requestId", Py.str "2"), ("url", Py.str "u2")],
     Py.dict [("requestId", Py.str "3"), ("url", Py.str "u3")]]
    [] (by decide) (by decide)).2.1
  exact h.trans (by rfl)

/-- C10: on a buffer already at capacity, a handler invocation whose
message projection raises still evicts the oldest record even though the
malformed event is not appended: the `pop(0)` precedes the projection, so
the buffer ends one entry shorter than it started. -/
theorem c10_eviction_on_malformed_event :
    ∀ (cap : Nat) (bufR bufS : List Py) (mR mS : Py),
      bufR.length = cap → bufS.length = cap → 1 ≤ cap →
      exIsOk (projectRequestData mR) = false →
      exIsOk (projectResponseData mS) = false →
      (networkRequestHandler cap bufR mR = bufR.drop 1 ∧
       (networkRequestHandler cap bufR mR).length + 1 = bufR.length ∧
       networkResponseHandler cap bufS mS = bufS.drop 1 ∧
       (networkResponseHandler cap bufS mS).length + 1 = bufS.length) := by
  intro cap bufR bufS mR mS hR hS hcap heR heS
  rw [networkRequestHandler_eq, networkResponseHandler_eq]
  rw [bufStep_err_at_cap projectRequestData cap bufR mR hR hcap heR,
    bufStep_err_at_cap projectResponseData cap bufS mS hS hcap heS]
  refine ⟨rfl, ?_, rfl, ?_⟩ <;> rw [List.length_drop] <;> omega

/-- Witness for C10: a cap-1 buffer hit by a malformed event (a bare
string message has no `.get`) is emptied, not left unchanged. -/
theorem c10_eviction_on_malformed_event_witness :
    networkRequestHandler 1 [Py.none] (Py.str "bad") = [] ∧
    networkResponseHandler 1 [Py.none] (Py.str "bad") = [] := by
  have h := c10_eviction_on_malformed_event 1 [Py.none] [Py.none]
    (Py.str "bad") (Py.str "bad") rfl rfl (by decide) (by decide) (by decide)
  exact ⟨h.1.trans (by rfl), h.2.2.1.trans (by rfl)⟩

/-- C8: starting while already monitoring, or stopping while already
stopped, issues no driver command, returns success, and leaves the flag
and both buffers (the whole client state) unchanged. -/
theorem c8_start_stop_noop :
    ∀ (env : Env) (s : ClientState),
      (s.network_monitoring = true →
        start_network_monitoring env s = (true, s, [])) ∧
      (s.network_monitoring = false →
        stop_network_monitoring env s = (true, s, [])) := by
  intro env s
  constructor <;> intro h <;>
    simp [start_network_monitoring, stop_network_monitoring, h]

/-- Witness for C8 on concrete states. -/
theorem c8_start_stop_noop_witness :
    start_network_monitoring
        ⟨true, true, true, true, true, true, true, true, [],
          fun _ => Option.none, [], []⟩
        { initClient with network_monitoring := true }
      = (true, { initClient with network_monitoring := true }, []) ∧
    stop_network_monitoring
        ⟨true, true, true, true, true, true, true, true, [],
          fun _ => Option.none, [], []⟩
        initClient
      = (true, initClient, []) :=
  ⟨(c8_start_stop_noop
      ⟨true, true, true, true, true, true, true, true, [],
        fun _ => Option.none, [], []⟩
      { initClient with network_monitoring := true }).1 rfl,
   (c8_start_stop_noop
      ⟨true, true, true, true, true, true, true, true, [],
        fun _ => Option.none, [], []⟩
      initClient).2 rfl⟩

/-- C3 counterexample: when `Network.disable` raises during an active
stop, the call does return failure, but the monitoring flag is *not*
reset — it stays `true`, contradicting the claim that the flag is
nevertheless reset to `False`. -/
theorem c3_counterexample :
    (stop_network_monitoring
        ⟨true, true, true, true, false, true, true, true, [],
          fun _ => Option.none, [], []⟩
        { initClient with network_monitoring := true }).1 = false ∧
    (stop_network_monitoring
        ⟨true, true, true, true, false, true, true, true, [],
          fun _ => Option.none, [], []⟩
        { initClient with network_monitoring := true
          }).2.1.network_monitoring = true :=
  ⟨rfl, rfl⟩

/-- C3 (amended): when monitoring is active, a driver handle exists and
`Network.disable` raises, `stop_network_monitoring` returns failure and
the monitoring flag remains `true` (the reset sits after the command
inside the `try`), so a repeated stop call retries the disable and fails
again rather than being a no-op success. -/
theorem c3_stop_failure_keeps_monitoring :
    ∀ (env : Env) (s : ClientState),
      s.network_monitoring = true → env.driverPresent = true →
      env.disableOk = false →
      ((stop_network_monitoring env s).1 = false ∧
       (stop_network_monitoring env s).2.1.network_monitoring = true ∧
       (stop_network_monitoring env
          (stop_network_monitoring env s).2.1).1 = false) := by
  intro env s h1 h2 h3
  simp [stop_network_monitoring, h1, h2, h3]

/-- Witness for the amended C3. -/
theorem c3_stop_failure_keeps_monitoring_witness :
    (stop_network_monitoring
        ⟨false, false, false, false, false, true, false, false, [],
          fun _ => Option.none, [], []⟩
        { initClient with network_monitoring := true }).1 = false ∧
    (stop_network_monitoring
        ⟨false, false, false, false, false, true, false, false, [],
          fun _ => Option.none, [], []⟩
        { initClient with network_monitoring := true
          }).2.1.network_monitoring = true := by
  have h := c3_stop_failure_keeps_monitoring
    ⟨false, false, false, false, false, true, false, false, [],
      fun _ => Option.none, [], []⟩
    { initClient with network_monitoring := true } rfl rfl rfl
  exact ⟨h.1, h.2.1⟩

/-- C2: `get_network_responses` with a filter raises `AttributeError` on a
buffer containing a record whose `url` is `None` (the empty-string
default of `.get` applies only to an absent key, so the lowercasing of
`None` is reached),
while the unfiltered call returns the record; the claim's "treated as an
empty string ... never raises" does not hold. -/
theorem c2_null_url_filter_raises :
    get_network_responses
        [Py.dict [("requestId", Py.str "1"), ("url", Py.none)]]
        (some "api")
      = .error .attributeError ∧
    get_network_responses
        [Py.dict [("requestId", Py.str "1"), ("url", Py.none)]]
        Option.none
      = .ok [Py.dict [("requestId", Py.str "1"), ("url", Py.none)]] :=
  ⟨rfl, rfl⟩

theorem start_failure_state (env : Env) (s : ClientState)
    (h : (start_network_monitoring env s).1 = false) :
    (start_network_monitoring env s).2.1 = s ∧
      s.network_monitoring = false := by
  by_cases hm : s.network_monitoring = true
  · simp [start_network_monitoring, hm] at h
  · by_cases h1 : env.getDriverOk <;> by_cases h2 : env.enableOk <;>
      by_cases h3 : env.addListenReqOk <;>
      by_cases h4 : env.addListenRespOk <;>
      simp_all [start_network_monitoring]

/-- C7: whenever `start_network_monitoring` fails inside
`assess_api_enhanced`, the call returns exactly the static assessment
result, and the monitoring flag of the final state is `false`. -/
theorem c7_start_failure_static_fallback :
    ∀ (env : Env) (s : ClientState),
      (start_network_monitoring env (clear_network_data s)).1 = false →
      ((assess_api_enhanced env s).1 = env.staticResult ∧
       (assess_api_enhanced env s).2.network_monitoring = false) := by
  intro env s h
  obtain ⟨hkeep, hmon⟩ := start_failure_state env (clear_network_data s) h
  simp only [assess_api_enhanced, h, hkeep, Bool.not_false, if_true]
  refine ⟨by trivial, ?_⟩
  simpa using hmon

/-- Witness for C7: a failing `Network.enable` makes the enhanced
assessment return the static result with monitoring off. -/
theorem c7_start_failure_static_fallback_witness :
    (assess_api_enhanced
        ⟨true, false, true, true, true, false, true, true,
          [("name", Py.str "static")], fun _ => Option.none, [], []⟩
        initClient).1 = [("name", Py.str "static")] ∧
    (assess_api_enhanced
        ⟨true, false, true, true, true, false, true, true,
          [("name", Py.str "static")], fun _ => Option.none, [], []⟩
        initClient).2.network_monitoring = false := by
  have h := c7_start_failure_static_fallback
    ⟨true, false, true, true, true, false, true, true,
      [("name", Py.str "static")], fun _ => Option.none, [], []⟩
    initClient (by rfl)
  exact ⟨h.1.trans (by rfl), h.2⟩

/-- C4: the merge overwrites a baseline field exactly when the extracted
candidate (the structured-payload output updated by the GraphQL output,
so the GraphQL value is the candidate for a field both produce) is truthy
and differs from the baseline's existing value for that key; otherwise
the baseline value is kept. -/
theorem c4_merge_overwrite_rule :
    ∀ (baseline rsc gql : List (String × Py)),
      (dictKeys rsc).Nodup → (dictKeys gql).Nodup →
      ((∀ k, dictFind (mergeEnhanced baseline (dictUpdate rsc gql)) k =
          match dictFind (dictUpdate rsc gql) k with
          | some v =>
              if v.truthy && !(Py.eqb v ((dictFind baseline k).getD Py.none))
              then some v else dictFind baseline k
          | Option.none => dictFind baseline k) ∧
       (∀ k v, dictFind gql k = some v →
          dictFind (dictUpdate rsc gql) k = some v)) := by
  intro baseline rsc gql hr hg
  exact ⟨fun k => mergeEnhanced_find (dictUpdate rsc gql) k baseline
      (nodup_dictKeys_dictUpdate rsc gql hr),
    fun k v hv => dictFind_dictUpdate_of_find gql k v rsc hg hv⟩

/-- Witness for C4: both extractors produce `description` with different
values; the merged result holds the GraphQL (second-applied) value. -/
theorem c4_merge_overwrite_rule_witness :
    dictFind
        (mergeEnhanced [("description", Py.str "old")]
          (dictUpdate [("description", Py.str "rsc")]
            [("description", Py.str "gql")]))
        "description"
      = some (Py.str "gql") := by
  have h := (c4_merge_overwrite_rule [("description", Py.str "old")]
    [("description", Py.str "rsc")] [("description", Py.str "gql")]
    (by decide) (by decide)).1 "description"
  exact h.trans (by rfl)

/-- C6: over an envelope whose `data` member is an object, the source's
selection chain agrees with the specification's first-present-of-four-
paths rule (`api`, `getApi`, `apiDetails`, `marketplace.api`, in that
priority order), provided a present `marketplace` value is an object; and
a record step that finds a usable API-info object (`brk`) makes the loop
ignore every following record. -/
theorem c6_graphql_path_priority_and_break :
    (∀ d : List (String × Py),
        (∀ v, dictFind d "marketplace" = some v → ∃ kvs, v = Py.dict kvs) →
        apiInfoSelect (Py.dict d) = .ok (specApiInfoPath d)) ∧
    (∀ (fetch : Py → Option String) (acc : List (String × Py)) (r : Py)
        (rest : List Py) (acc' : List (String × Py)),
        graphqlRecordStep fetch acc r = (acc', GStep.brk) →
        extractGraphqlLoop fetch (r :: rest) acc
          = extractGraphqlLoop fetch [r] acc) := by
  constructor
  · intro d hm
    cases h1 : dictFind d "api" with
    | some v =>
        simp [apiInfoSelect, specApiInfoPath, pyContains, pySubscr, h1,
          pyBind_ok, pyBind_err, pyPure_def]
    | none =>
        cases h2 : dictFind d "getApi" with
        | some v =>
            simp [apiInfoSelect, specApiInfoPath, pyContains, pySubscr,
              h1, h2, pyBind_ok, pyBind_err, pyPure_def]
        | none =>
            cases h3 : dictFind d "apiDetails" with
            | some v =>
                simp [apiInfoSelect, specApiInfoPath, pyContains, pySubscr,
                  h1, h2, h3, pyBind_ok, pyBind_err, pyPure_def]
            | none =>
                cases h4 : dictFind d "marketplace" with
                | some v =>
                    obtain ⟨kvs, rfl⟩ := hm v h4
                    cases h5 : dictFind kvs "api" <;>
                      simp [apiInfoSelect, specApiInfoPath, pyContains,
                        pySubscr, h1, h2, h3, h4, h5,
                        pyBind_ok, pyBind_err, pyPure_def]
                | none =>
                    simp [apiInfoSelect, specApiInfoPath, pyContains,
                      pySubscr, h1, h2, h3, h4,
                      pyBind_ok, pyBind_err, pyPure_def]
  · intro fetch acc r rest acc' h
    simp [extractGraphqlLoop, h]

/-- Witness for C6: the `getApi` path is selected when `api` is absent,
and a breaking first record makes a following malformed record
irrelevant. -/
theorem c6_graphql_path_priority_and_break_witness :
    apiInfoSelect (Py.dict [("getApi", Py.dict [("x", Py.int 1)])])
      = .ok (some (Py.dict [("x", Py.int 1)])) ∧
    extractGraphqlLoop
        (fun _ => some "\x7b\"data\":\x7b\"api\":\x7b\"name\":\"N\"\x7d\x7d\x7d")
        [Py.dict [("requestId", Py.str "r1")], Py.none] []
      = extractGraphqlLoop
        (fun _ => some "\x7b\"data\":\x7b\"api\":\x7b\"name\":\"N\"\x7d\x7d\x7d")
        [Py.dict [("requestId", Py.str "r1")]] [] := by
  constructor
  · have h := c6_graphql_path_priority_and_break.1
      [("getApi", Py.dict [("x", Py.int 1)])]
      (by intro v hv; simp [dictFind] at hv)
    exact h.trans (by rfl)
  · exact c6_graphql_path_priority_and_break.2 _ [] _ [Py.none]
      [("name", Py.str "N")] (by rfl)

/-! ## Lemmas about the description regex search -/

theorem takeWhile_append_all (p : Char → Bool) :
    ∀ xs ys : List Char, (∀ x ∈ xs, p x = true) →
      List.takeWhile p (xs ++ ys) = xs ++ List.takeWhile p ys := by
  intro xs
  induction xs with
  | nil => intro ys _; simp
  | cons c cs ih =>
      intro ys h
      have hc : p c = true := h c (by simp)
      simp only [List.cons_append, List.takeWhile_cons, hc, if_true]
      rw [ih ys fun x hx => h x (by simp [hx])]

theorem descMatchAt_exact (content rest : List Char)
    (hc : ∀ c ∈ content, (!(c == '"')) = true) :
    descMatchAt (descLit ++ (content ++ '"' :: rest)) = some content := by
  have hpre : descLit.isPrefixOf (descLit ++ (content ++ '"' :: rest))
      = true := by
    simp [List.isPrefixOf_iff_prefix]
  simp only [descMatchAt]
  rw [if_pos hpre, List.drop_left, takeWhile_append_all _ content _ hc,
    List.takeWhile_cons]
  have hq : (!('"' == '"')) = false := rfl
  rw [hq]
  simp only [Bool.false_eq_true, if_false, List.append_nil]
  have hlt : content.length < (content ++ '"' :: rest).length := by
    simp only [List.length_append, List.length_cons]
    omega
  rw [if_pos hlt]

theorem descMatchAt_cons_ne (c : Char) (l : List Char) (h : ¬ c = '"') :
    descMatchAt (c :: l) = Option.none := by
  have hb : ('"' == c) = false := beq_eq_false_iff_ne.mpr fun hh => h hh.symm
  have hlit : descLit = '"' :: "description\",\"content\":\"".data := by
    decide
  simp [descMatchAt, hlit, List.isPrefixOf, hb]

theorem reFind_cons_found (m : List Char → Option (List Char)) (c : Char)
    (cs : List Char) (r : List Char) (hm : m (c :: cs) = some r) :
    reFind m (c :: cs) = some r := by
  simp [reFind, hm]

theorem reFind_desc_skip (p : List Char) :
    ∀ z : List Char, (∀ c ∈ p, ¬ c = '"') →
      reFind descMatchAt (p ++ z) = reFind descMatchAt z := by
  induction p with
  | nil => intro z _; rfl
  | cons c cs ih =>
      intro z h
      have hc : ¬ c = '"' := h c (by simp)
      have hskip : descMatchAt (c :: (cs ++ z)) = Option.none :=
        descMatchAt_cons_ne c (cs ++ z) hc
      calc reFind descMatchAt ((c :: cs) ++ z)
          = reFind descMatchAt (c :: (cs ++ z)) := rfl
        _ = reFind descMatchAt (cs ++ z) := by
            simp only [reFind]
            rw [hskip]
        _ = reFind descMatchAt z := ih z fun x hx => h x (by simp [hx])

theorem reFind_desc_found (p sfx : List Char) (hp : ∀ c ∈ p, ¬ c = '"') :
    reFind descMatchAt
        (p ++ ("\"description\",\"content\":\"Free weather data\"".data
          ++ sfx))
      = some ("Free weather data".data) := by
  rw [reFind_desc_skip p _ hp]
  exact reFind_cons_found descMatchAt '"'
    ("description\",\"content\":\"Free weather data\"".data ++ sfx)
    ("Free weather data".data)
    (descMatchAt_exact "Free weather data".data sfx (by decide))

/-! ## Field-stability lemmas for the RSC extractor sections -/

theorem rscProviderStep_find_ne (u : String) (acc : List (String × Py))
    (k : String) (h : k ≠ "provider") :
    dictFind (rscProviderStep u acc) k = dictFind acc k := by
  unfold rscProviderStep
  split
  · split
    · exact dictFind_dictSet_ne acc "provider" k _ h
    · rfl
  · rfl

theorem rscPricingStep_find_ne (u body : String) (acc : List (String × Py))
    (k : String) (h : k ≠ "pricing") :
    dictFind (rscPricingStep u body acc) k = dictFind acc k := by
  unfold rscPricingStep
  split
  · split
    · split
      · exact dictFind_dictSet_ne acc "pricing" k _ h
      · rfl
    · rfl
  · rfl

theorem rscEndpointsStep_find_ne (u body : String)
    (acc : List (String × Py)) (k : String) (h : k ≠ "endpoints") :
    dictFind (rscEndpointsStep u body acc) k = dictFind acc k := by
  unfold rscEndpointsStep
  split
  · split
    · split
      · exact dictFind_dictSet_ne acc "endpoints" k _ h
      · rfl
    · rfl
  · rfl

/-- C9: for a record with a truthy `requestId` and a url containing
`/api/`, when the fetched body consists of any quote-free prefix, the
literal `"description","content":"Free weather data"`, and any suffix
(so the pattern's first occurrence captures `Free weather data`), the
structured-payload extractor's output maps `description` to
`Free weather data`. -/
theorem c9_rsc_description_extraction :
    ∀ (p sfx : List Char) (u rid : String),
      rid ≠ "" → (∀ c ∈ p, ¬ c = '"') → strIn "/api/" u = true →
      dictFind
        (extractRscData
          (fun _ => some (String.mk
            (p ++ ("\"description\",\"content\":\"Free weather data\"".data
              ++ sfx))))
          [Py.dict [("requestId", Py.str rid), ("url", Py.str u)]])
        "description"
      = some (Py.str "Free weather data") := by
  intro p sfx u rid hrid hp hu
  have htr : (Py.str rid).truthy = true := by
    simp [Py.truthy, hrid]
  have hLne : (p ++ ("\"description\",\"content\":\"Free weather data\"".data
      ++ sfx)) ≠ [] := by
    simp only [ne_eq, List.append_eq_nil]
    intro hh
    exact absurd hh.2.1 (by decide)
  have hbody : (String.mk
      (p ++ ("\"description\",\"content\":\"Free weather data\"".data
        ++ sfx)) == "") = false :=
    beq_eq_false_iff_ne.mpr fun h => hLne (congrArg String.data h)
  have h1 : pyGet (Py.dict [("requestId", Py.str rid), ("url", Py.str u)])
      "requestId" = .ok (Py.str rid) := rfl
  have h2 : pyGetDefault
      (Py.dict [("requestId", Py.str rid), ("url", Py.str u)]) "url"
      (Py.str "") = .ok (Py.str u) := rfl
  have hdesc : rscDescStep (String.mk
      (p ++ ("\"description\",\"content\":\"Free weather data\"".data
        ++ sfx))) []
      = [("description", Py.str "Free weather data")] := by
    simp only [rscDescStep, reFind_desc_found p sfx hp]
    rfl
  simp only [extractRscData, extractRscLoop, rscRecordStep, h1, h2, htr,
    hu, hbody, Bool.not_true, Bool.not_false, Bool.false_eq_true, if_false,
    hdesc]
  rw [rscEndpointsStep_find_ne _ _ _ _ (by decide),
    rscPricingStep_find_ne _ _ _ _ (by decide),
    rscProviderStep_find_ne _ _ _ (by decide)]
  rfl

/-- C5: for any response record with a truthy `requestId` whose fetched
body is the GraphQL JSON envelope whose `data.api` object carries
`name = "Weather API"`, `rating = 4.5` and `reviewCount = "120"`, the
GraphQL extractor returns exactly `name = "Weather API"` (verbatim),
`rating = 4.5` as a float, and `reviewCount = 120` as an int. -/
theorem c5_graphql_weather_extraction :
    ∀ rid : String, rid ≠ "" →
      extractGraphqlData
        (fun _ => some
          "\x7b\"data\":\x7b\"api\":\x7b\"name\":\"Weather API\",\"rating\":4.5,\"reviewCount\":\"120\"\x7d\x7d\x7d")
        [Py.dict [("requestId", Py.str rid)]]
      = [("name", Py.str "Weather API"), ("rating", Py.float 45 1),
         ("reviewCount", Py.int 120)] := by
  intro rid h
  have htr : (Py.str rid).truthy = true := by
    simp [Py.truthy, h]
  have h1 : pyGet (Py.dict [("requestId", Py.str rid)]) "requestId"
      = .ok (Py.str rid) := rfl
  simp only [extractGraphqlData, extractGraphqlLoop, graphqlRecordStep, h1,
    htr, Bool.not_true, Bool.false_eq_true, if_false]
  rfl

/-- Witness for C5 at a concrete request id. -/
theorem c5_graphql_weather_extraction_witness :
    extractGraphqlData
        (fun _ => some
          "\x7b\"data\":\x7b\"api\":\x7b\"name\":\"Weather API\",\"rating\":4.5,\"reviewCount\":\"120\"\x7d\x7d\x7d")
        [Py.dict [("requestId", Py.str "r1")]]
      = [("name", Py.str "Weather API"), ("rating", Py.float 45 1),
         ("reviewCount", Py.int 120)] :=
  c5_graphql_weather_extraction "r1" (by decide)

/-- Witness for C9 on a concrete record and body. -/
theorem c9_rsc_description_extraction_witness :
    dictFind
        (extractRscData
          (fun _ => some (String.mk
            (("xx".data)
              ++ ("\"description\",\"content\":\"Free weather data\"".data
                ++ "yy".data))))
          [Py.dict [("requestId", Py.str "r1"),
            ("url", Py.str "https://rapidapi.com/acme/api/weather")]])
        "description"
      = some (Py.str "Free weather data") :=
  c9_rsc_description_extraction "xx".data "yy".data
    "https://rapidapi.com/acme/api/weather" "r1" (by decide) (by decide)
    (by decide)

end RapidApi
